import Mathlib

/-!
Shallow embedding of the AstroFlow service (`src/main.py`) and proofs about it.

Conventions used throughout:
* Python `float` values are modelled as rationals (`ℚ`); Python `%` and `//`
  on numbers are modelled by explicit floor-based definitions (`pymod`,
  `pyfloordiv`), and Python `int(...)` truncation by `pyint`.
* Python `Optional[str]` is `Option String`; Python dictionaries that the code
  builds with a fixed key set are modelled as association lists that keep the
  insertion order of the source (Python 3.7+ dict iteration order).
* Fallible code is modelled with `Except`.  The standard library collaborators
  (`hashlib.sha256`, `random.Random`, `datetime.fromisoformat`) are modelled by
  deterministic executable stand-ins, marked as such in their doc comments;
  no theorem below depends on the particular digits those stand-ins produce,
  only on their determinism and on the contracts the source relies on.
-/

set_option autoImplicit false
set_option maxRecDepth 1000000

namespace AstroFlow

/-! ## Constants (`src/main.py` lines 53-235) -/

/-- The closed topic set `TOPICS` (lines 56-68). -/
def TOPICS : List String :=
  ["love", "career", "money", "personal", "timing", "strengths", "shadow",
   "communication", "health", "friendships", "purpose"]

/-- The fixed body order `PLANETS` (lines 70-73). -/
def PLANETS : List String :=
  ["sun", "moon", "mercury", "venus", "mars",
   "jupiter", "saturn", "uranus", "neptune", "pluto"]

/-- `SIGNS_EN` (lines 75-78). -/
def SIGNS_EN : List String :=
  ["Aries", "Taurus", "Gemini", "Cancer", "Leo", "Virgo",
   "Libra", "Scorpio", "Sagittarius", "Capricorn", "Aquarius", "Pisces"]

/-- `SIGNS_IT` (lines 79-82). -/
def SIGNS_IT : List String :=
  ["Ariete", "Toro", "Gemelli", "Cancro", "Leone", "Vergine",
   "Bilancia", "Scorpione", "Sagittario", "Capricorno", "Acquario", "Pesci"]

/-- `SIGNS_ES` (lines 83-86). -/
def SIGNS_ES : List String :=
  ["Aries", "Tauro", "Géminis", "Cáncer", "Leo", "Virgo",
   "Libra", "Escorpio", "Sagitario", "Capricornio", "Acuario", "Piscis"]

/-- `ELEMENT` map (lines 88-93), in source insertion order. -/
def ELEMENT : List (String × String) :=
  [("Aries", "fire"), ("Leo", "fire"), ("Sagittarius", "fire"),
   ("Taurus", "earth"), ("Virgo", "earth"), ("Capricorn", "earth"),
   ("Gemini", "air"), ("Libra", "air"), ("Aquarius", "air"),
   ("Cancer", "water"), ("Scorpio", "water"), ("Pisces", "water")]

/-- `MODALITY` map (lines 95-99), in source insertion order. -/
def MODALITY : List (String × String) :=
  [("Aries", "cardinal"), ("Cancer", "cardinal"), ("Libra", "cardinal"), ("Capricorn", "cardinal"),
   ("Taurus", "fixed"), ("Leo", "fixed"), ("Scorpio", "fixed"), ("Aquarius", "fixed"),
   ("Gemini", "mutable"), ("Virgo", "mutable"), ("Sagittarius", "mutable"), ("Pisces", "mutable")]

/-- `PLANET_WEIGHT` (lines 101-106). -/
def PLANET_WEIGHT : List (String × ℚ) :=
  [("sun", 3), ("moon", 3), ("ascendant", 2.6),
   ("mercury", 2), ("venus", 2), ("mars", 2),
   ("jupiter", 1.6), ("saturn", 1.9),
   ("uranus", 1.1), ("neptune", 1.1), ("pluto", 1.2)]

/-- `PLANET_WEIGHT.get(p, 1.0)` as used on line 418. -/
def planetWeight (p : String) : ℚ := (PLANET_WEIGHT.lookup p).getD 1

/-- `TOPIC_FOCUS` (lines 223-235). -/
def TOPIC_FOCUS : List (String × List String) :=
  [("personal",  ["core", "engine", "mind", "drive", "strengths", "wow"]),
   ("love",      ["core", "engine", "love", "mind", "shadow", "wow"]),
   ("career",    ["core", "mind", "drive", "strengths", "money", "wow"]),
   ("money",     ["core", "money", "drive", "mind", "shadow", "wow"]),
   ("shadow",    ["core", "engine", "shadow", "mind", "drive", "wow"]),
   ("strengths", ["core", "strengths", "mind", "drive", "engine", "wow"]),
   ("communication", ["core", "mind", "engine", "shadow", "strengths", "wow"]),
   ("timing",    ["core", "timing", "drive", "mind", "engine", "wow"]),
   ("health",    ["core", "health", "engine", "mind", "drive", "wow"]),
   ("friendships", ["core", "social", "mind", "engine", "shadow", "wow"]),
   ("purpose",   ["core", "purpose", "drive", "mind", "strengths", "wow"])]

/-! ## Python primitive models -/

/-- Python `x or d` for an optional string: `None` and `""` are falsy. -/
def pyOrStr (o : Option String) (d : String) : String :=
  match o with
  | Option.none => d
  | some s => if s = "" then d else s

/-- Python `str.lower()` (ASCII model): character-wise lower-casing. -/
def pyLower (s : String) : String := String.mk (s.data.map Char.toLower)

/-- Python `str.strip()`: drop leading and trailing whitespace. -/
def pyStrip (s : String) : String :=
  String.mk (((s.data.dropWhile Char.isWhitespace).reverse.dropWhile Char.isWhitespace).reverse)

/-- Python `str.capitalize()`: first character upper-cased, the rest lower-cased. -/
def pyCapitalize (s : String) : String :=
  match s.data with
  | [] => ""
  | c :: cs => String.mk (c.toUpper :: cs.map Char.toLower)

/-- One pass of Python `str.replace(pat, rep)` over a character list, with a
step-count bound (`fuel ≥ list length` makes it total; structural recursion
keeps it kernel-computable).  Non-overlapping occurrences are replaced left
to right, as in Python. -/
def replaceFuel (pat rep : List Char) : ℕ → List Char → List Char
  | 0, l => l
  | _, [] => []
  | fuel + 1, c :: rest =>
    if pat.isPrefixOf (c :: rest) then
      rep ++ replaceFuel pat rep fuel ((c :: rest).drop pat.length)
    else c :: replaceFuel pat rep fuel rest

/-- Python `s.replace(pat, rep)` for a nonempty pattern (the source only ever
replaces `"Z"`). -/
def pyReplace (s pat rep : String) : String :=
  if pat = "" then s
  else String.mk (replaceFuel pat.data rep.data s.data.length s.data)

/-- Python `a % b` on numbers (result has the divisor's sign; here `b > 0`). -/
def pymod (a b : ℚ) : ℚ := a - b * ⌊a / b⌋

/-- Python `a // b` (floor division). -/
def pyfloordiv (a b : ℚ) : ℚ := (⌊a / b⌋ : ℚ)

/-- Python `int(x)` on a number: truncation toward zero. -/
def pyint (q : ℚ) : ℤ := if 0 ≤ q then ⌊q⌋ else ⌈q⌉

/-! ## Helpers (`src/main.py` lines 241-316) -/

/-- `clamp_lang` (lines 241-243). -/
def clamp_lang (lang : Option String) : String :=
  let l := pyStrip (pyLower (pyOrStr lang "en"))
  if l ∈ ["en", "it", "es"] then l else "en"

/-- `clamp_topic` (lines 245-247). -/
def clamp_topic (topic : Option String) : String :=
  let t := pyStrip (pyLower (pyOrStr topic ""))
  if t ∈ TOPICS then t else "personal"

/-- `sign_name` (lines 249-260): translate an English sign name into the
requested language; unknown strings are returned unchanged. -/
def sign_name (sign_en : String) (lang : String) : String :=
  if sign_en = "" then ""
  else
    match SIGNS_EN.findIdx? (fun en => en = pyCapitalize sign_en) with
    | Option.none => sign_en
    | some idx =>
      if lang = "it" then SIGNS_IT.getD idx ""
      else if lang = "es" then SIGNS_ES.getD idx ""
      else SIGNS_EN.getD idx ""

/-- `zodiac_sign_index` (lines 274-276): `int((longitude % 360.0) // 30)`. -/
def zodiac_sign_index (longitude : ℚ) : ℤ :=
  pyint (pyfloordiv (pymod longitude 360) 30)

/-- `normalize_sign_en` (lines 278-285). -/
def normalize_sign_en (s : String) : String :=
  if s = "" then ""
  else
    let s2 := pyLower (pyStrip s)
    match SIGNS_EN.find? (fun en => pyLower en = s2) with
    | some en => en
    | Option.none => pyCapitalize (pyStrip s)

/-! ## Chart values

Reading requests carry an arbitrary JSON-ish chart structure; `PyVal` models
the Python values `safe_get_sign` can encounter. -/

inductive PyVal where
  | str (s : String)
  | num (q : ℚ)
  | dict (entries : List (String × PyVal))
  | list (entries : List PyVal)
  | none

/-- Python truthiness for the values above. -/
def pyTruthy : PyVal → Bool
  | .str s => s ≠ ""
  | .num q => q ≠ 0
  | .dict es => !es.isEmpty
  | .list es => !es.isEmpty
  | .none => false

/-- Python `d.get(k)` on a dict (default `None`); non-dicts never reach `get`
in the source because of the `isinstance` guards. -/
def PyVal.get : PyVal → String → PyVal
  | .dict es, k => (es.lookup k).getD .none
  | _, _ => .none

/-- Python `x or ""`. -/
def pyOrEmpty (v : PyVal) : PyVal := if pyTruthy v then v else .str ""

/-- Python `str(...)` on the values that can reach it in `safe_get_sign`.
Strings render as themselves; the source applies it after `or ""`, so `None`
never reaches it.  Numbers and containers would render as their Python repr;
this model uses a fixed deterministic rendering (no theorem below exercises
those branches). -/
def pyStr : PyVal → String
  | .str s => s
  | .num q => toString q
  | .dict _ => "<dict>"
  | .list _ => "<list>"
  | .none => "None"

/-- Python `v == key` where `key` is a `str`: true only for an equal string. -/
def PyVal.eqStr : PyVal → String → Bool
  | .str s, k => s = k
  | _, _ => false

/-- The list-of-planets branch of `safe_get_sign` (lines 305-308): first dict
entry whose `"key"` or `"name"` equals `key` yields its `"sign"`. -/
def findPlanetInList : List PyVal → String → String
  | [], _ => ""
  | p :: ps, key =>
    match p with
    | .dict d =>
      if ((PyVal.dict d).get "key").eqStr key || ((PyVal.dict d).get "name").eqStr key then
        pyStr (pyOrEmpty ((PyVal.dict d).get "sign"))
      else findPlanetInList ps key
    | _ => findPlanetInList ps key

/-- `safe_get_sign` (lines 287-309). -/
def safe_get_sign (chart : PyVal) (key : String) : String :=
  if pyTruthy chart = false then ""
  else if key = "ascendant" then
    match chart.get "ascendant" with
    | .dict d => pyStr (pyOrEmpty ((PyVal.dict d).get "sign"))
    | .str s => s
    | _ => ""
  else
    match chart.get "planets" with
    | .dict d =>
      match (PyVal.dict d).get key with
      | .dict v => pyStr (pyOrEmpty ((PyVal.dict v).get "sign"))
      | .str s => s
      | _ => ""
    | .list ps => findPlanetInList ps key
    | _ => ""

/-- `chart_signature` (lines 311-316). -/
def chart_signature (chart : PyVal) : String :=
  String.intercalate "|"
    ((PLANETS ++ ["ascendant"]).map
      (fun k => k ++ ":" ++ pyLower (normalize_sign_en (safe_get_sign chart k))))

/-! ## Seeded RNG (`src/main.py` lines 266-272)

`stable_rng` hashes the joined seed parts with `hashlib.sha256` and feeds the
leading 64 bits to `random.Random`.  Both collaborators are Python standard
library; they are modelled here by a deterministic executable stand-in: a
64-bit string hash for the digest and a simple deterministic stream for the
generator.  Every theorem below depends only on (a) determinism — equal seed
strings give equal generators — and (b) `randrange(0, n)` returning a value
in `[0, n)`, which are the exact contracts the source relies on. -/

/-- Deterministic 64-bit string hash: stand-in for
`int(hashlib.sha256(seed).hexdigest()[:16], 16)`. -/
def strSeed (s : String) : ℕ :=
  s.data.foldl (fun h c => (h * 1099511628211 + c.toNat + 1) % (2 ^ 64)) 14695981039346656037 % (2 ^ 64)

/-- State of the modelled `random.Random`: the seed plus how many values have
been drawn so far. -/
structure RNG where
  seed : ℕ
  pos : ℕ
deriving DecidableEq, Repr

/-- One draw from the modelled generator: a deterministic function of the seed
and the position in the stream. -/
def RNG.next (r : RNG) : ℕ × RNG :=
  (((r.seed + 1) * 6364136223846793005 + (r.pos + 1) * 1442695040888963407) % (2 ^ 64),
   { r with pos := r.pos + 1 })

/-- `rng.randrange(0, n)` (used by `pick`): a value in `[0, n)` for `n > 0`. -/
def RNG.randrange (r : RNG) (n : ℕ) : ℕ × RNG :=
  let (v, r2) := r.next
  (v % n, r2)

/-- `stable_rng` (lines 266-269); the source joins the parts with `"|"` and
seeds the generator from the digest. -/
def stable_rng (parts : List String) : RNG :=
  { seed := strSeed (String.intercalate "|" parts), pos := 0 }

/-- `pick` (lines 271-272): `items[rng.randrange(0, len(items))]`, threading
the generator state.  (`randrange` on an empty list would raise in Python;
every call site passes a nonempty literal list.) -/
def pick (rng : RNG) (items : List String) : String × RNG :=
  let (i, rng2) := rng.randrange items.length
  (items.getD i "", rng2)

/-! ## Worldwide birth time handling (`src/main.py` lines 322-358) -/

/-- `BirthInput` (lines 322-329). -/
structure BirthInput where
  date : String
  time : String
  city : Option String := Option.none
  country : Option String := Option.none
  tz : Option String := Option.none
  lat : Option ℚ := Option.none
  lon : Option ℚ := Option.none

/-- Failures the birth-time code can produce.  `httpException` models a raised
`fastapi.HTTPException` (surfaced with its status code); `nameError` models a
Python `NameError` from evaluating an undefined identifier (surfaced by the
framework as a 500 internal server error, not a client-caused 422). -/
inductive PyErr where
  | httpException (status : ℕ) (detail : String)
  | nameError (name : String)
deriving DecidableEq, Repr

/-- `resolve_tz_name` (lines 337-346).  When `b.tz` is truthy it is returned.
Otherwise the source executes `raise HTTPEException(status_code=422, ...)` —
but `HTTPEException` is not a defined name anywhere in the program (line 3
imports `HTTPException`), so evaluating it raises
`NameError("name 'HTTPEException' is not defined")` before any HTTP error
object is constructed. -/
def resolve_tz_name (b : BirthInput) : Except PyErr String :=
  match b.tz with
  | some tz => if tz ≠ "" then .ok tz else .error (.nameError "HTTPEException")
  | Option.none => .error (.nameError "HTTPEException")

/-! ## Chart calculation (`src/main.py` lines 377-404)

The ephemeris adapter (`swe.calc_ut`, `swe.houses`) is an external
collaborator; the pipeline below is parameterized by the raw longitudes it
returns.  `JVal` models a JSON leaf of the chart response. -/

inductive JVal where
  | num (q : ℚ)
  | str (s : String)
deriving DecidableEq, Repr

/-- One placement dict as built on lines 389-391 and 394-396:
`{"longitude": lon, "sign": SIGNS_EN[zodiac_sign_index(lon)]}`.
The index is always in range (proved below), so the `getD` default is
unreachable. -/
def placement_entry (lon : ℚ) : List (String × JVal) :=
  [("longitude", JVal.num lon),
   ("sign", JVal.str (SIGNS_EN.getD (zodiac_sign_index lon).toNat ""))]

/-- The placement dicts produced by `compute_chart_from_birth` (lines 386-396)
for given adapter longitudes: the ten bodies in `SWE_PLANETS` order, then the
ascendant. -/
def compute_chart_placements (bodyLons : String → ℚ) (ascLon : ℚ) :
    List (String × List (String × JVal)) :=
  PLANETS.map (fun name => (name, placement_entry (bodyLons name)))
    ++ [("ascendant", placement_entry ascLon)]

/-! ## Element/modality profile (`src/main.py` lines 410-432) -/

/-- The insertion-order keys of `elem_score` (line 412). -/
def ELEM_KEYS : List String := ["fire", "earth", "air", "water"]

/-- The insertion-order keys of `mod_score` (line 413). -/
def MOD_KEYS : List String := ["cardinal", "fixed", "mutable"]

/-- A score dict initialised to `0.0` for each key. -/
def init_scores (keys : List String) : List (String × ℚ) :=
  keys.map (fun k => (k, 0))

/-- `score[k] += w`: add `w` at key `k` of an association-list dict (no-op if
the key is absent; in the source the key is always present because the values
of `ELEMENT`/`MODALITY` are exactly the score keys). -/
def bump (l : List (String × ℚ)) (k : String) (w : ℚ) : List (String × ℚ) :=
  l.map (fun p => if p.1 = k then (p.1, p.2 + w) else p)

/-- `sum(score.values())`. -/
def sumValues (l : List (String × ℚ)) : ℚ := (l.map Prod.snd).sum

/-- `score[k]` for a key of the dict. -/
def lookup0 (l : List (String × ℚ)) (k : String) : ℚ := (l.lookup k).getD 0

/-- Python `max(keys, key=f)`: left fold that replaces the current best only
on a strictly greater value, so the first maximum wins ties. -/
def pymaxKey (f : String → ℚ) : List String → Option String
  | [] => Option.none
  | k :: ks => some (ks.foldl (fun best j => if f j > f best then j else best) k)

/-- The loop body of `element_modality_profile` (lines 415-422), threading the
pair of score dicts. -/
def profile_step (acc : List (String × ℚ) × List (String × ℚ)) (ps : String × String) :
    List (String × ℚ) × List (String × ℚ) :=
  if ps.2 = "" then acc
  else
    let w := planetWeight ps.1
    let es := match ELEMENT.lookup ps.2 with
      | some e => bump acc.1 e w
      | Option.none => acc.1
    let ms := match MODALITY.lookup ps.2 with
      | some m => bump acc.2 m w
      | Option.none => acc.2
    (es, ms)

/-- Result record of `element_modality_profile` (lines 427-432). -/
structure Profile where
  elements : List (String × ℚ)
  modalities : List (String × ℚ)
  dominant_element : Option String
  dominant_modality : Option String
deriving DecidableEq, Repr

/-- `element_modality_profile` (lines 410-432). -/
def element_modality_profile (signs : List (String × String)) : Profile :=
  let scores := signs.foldl profile_step (init_scores ELEM_KEYS, init_scores MOD_KEYS)
  { elements := scores.1
    modalities := scores.2
    dominant_element :=
      if 0 < sumValues scores.1 then pymaxKey (lookup0 scores.1) (scores.1.map Prod.fst)
      else Option.none
    dominant_modality :=
      if 0 < sumValues scores.2 then pymaxKey (lookup0 scores.2) (scores.2.map Prod.fst)
      else Option.none }

/-- `signs.get(k, "")` on the extracted sign dict. -/
def sget (signs : List (String × String)) (k : String) : String :=
  (signs.lookup k).getD ""

/-- `key_tensions` (lines 434-447): qualitative mismatch flags, in source
append order. -/
def key_tensions (signs : List (String × String)) : List String :=
  let sun := sget signs "sun"
  let moon := sget signs "moon"
  let asc := sget signs "ascendant"
  (if sun ≠ "" ∧ moon ≠ "" ∧ ELEMENT.lookup sun ≠ ELEMENT.lookup moon then
    ["sun_moon_element_mismatch"] else [])
  ++ (if sun ≠ "" ∧ moon ≠ "" ∧ MODALITY.lookup sun ≠ MODALITY.lookup moon then
    ["sun_moon_modality_mismatch"] else [])
  ++ (if moon ≠ "" ∧ asc ≠ "" ∧ ELEMENT.lookup moon ≠ ELEMENT.lookup asc then
    ["moon_asc_element_mismatch"] else [])

/-! ## I18N tables (`src/main.py` lines 126-220) -/

/-- `I18N[lang]["titles"]` (per-topic reading titles). -/
def titles_tbl (lang : String) : List (String × String) :=
  if lang = "it" then
    [("personal", "CRESCITA PERSONALE — La tua mappa interiore"),
     ("love", "AMORE & RELAZIONI — Il tuo pattern di legame"),
     ("career", "CARRIERA & DIREZIONE — La tua firma nel lavoro"),
     ("money", "DENARO & RISORSE — Il tuo flusso materiale"),
     ("shadow", "PATTERN EMOTIVI — La tua ombra interiore"),
     ("strengths", "PUNTI DI FORZA & DEBOLEZZE — Il tuo equilibrio"),
     ("communication", "COMUNICAZIONE — Come ti fai capire davvero"),
     ("timing", "TEMPI — Quando spingere, quando aspettare"),
     ("health", "SALUTE & ENERGIA — Come ti ricarichi"),
     ("friendships", "AMICIZIE — Il tuo stile sociale"),
     ("purpose", "SCOPO — Cosa sei qui per costruire")]
  else if lang = "es" then
    [("personal", "CRECIMIENTO PERSONAL — Tu mapa interior"),
     ("love", "AMOR & RELACIONES — Tu patrón de vínculo"),
     ("career", "CARRERA & DIRECCIÓN — Tu firma profesional"),
     ("money", "DINERO & RECURSOS — Tu flujo material"),
     ("shadow", "PATRONES EMOCIONALES — Tu sombra interior"),
     ("strengths", "FORTALEZAS & DEBILIDADES — Tu equilibrio"),
     ("communication", "COMUNICACIÓN — Cómo te entienden de verdad"),
     ("timing", "TIEMPOS — Cuándo empujar, cuándo esperar"),
     ("health", "SALUD & ENERGÍA — Cómo recargas"),
     ("friendships", "AMISTADES — Tu estilo social"),
     ("purpose", "PROPÓSITO — Lo que viniste a construir")]
  else
    [("personal", "PERSONAL GROWTH — Your Inner Blueprint"),
     ("love", "LOVE & RELATIONSHIPS — Your Bond Pattern"),
     ("career", "CAREER & DIRECTION — Your Work Signature"),
     ("money", "MONEY & RESOURCES — Your Material Flow"),
     ("shadow", "EMOTIONAL PATTERNS — Your Inner Shadow"),
     ("strengths", "STRENGTHS & WEAKNESSES — Your Power Balance"),
     ("communication", "COMMUNICATION — How You’re Understood"),
     ("timing", "TIMING — When to Push, When to Wait"),
     ("health", "HEALTH & ENERGY — How You Recharge"),
     ("friendships", "FRIENDSHIPS — Your Social Style"),
     ("purpose", "PURPOSE — What You’re Here to Build")]

/-- `I18N[lang]["sec"]` (per-section-key localized titles). -/
def sec_tbl (lang : String) : List (String × String) :=
  if lang = "it" then
    [("core", "IL NUCLEO"),
     ("engine", "IL TUO MOTORE EMOTIVO"),
     ("mind", "MENTE & VOCE"),
     ("drive", "COME AGISCI SOTTO PRESSIONE"),
     ("love", "IL TUO PATTERN D’AMORE"),
     ("money", "VALORE & DENARO"),
     ("shadow", "IL LOOP D’OMBRA"),
     ("strengths", "LE TUE MOSSE POTENTI"),
     ("timing", "LA LEVA DEL TEMPO"),
     ("health", "IGIENE ENERGETICA"),
     ("social", "DNA SOCIALE"),
     ("purpose", "LA TUA STELLA POLARE"),
     ("wow", "WOW PRACTICE (1 minuto)")]
  else if lang = "es" then
    [("core", "EL NÚCLEO"),
     ("engine", "TU MOTOR EMOCIONAL"),
     ("mind", "MENTE & VOZ"),
     ("drive", "CÓMO ACTÚAS BAJO PRESIÓN"),
     ("love", "TU PATRÓN DE AMOR"),
     ("money", "VALOR & DINERO"),
     ("shadow", "TU BUCLE DE SOMBRA"),
     ("strengths", "TUS MOVIMIENTOS DE PODER"),
     ("timing", "TU PALANCA DE TIEMPO"),
     ("health", "HIGIENE ENERGÉTICA"),
     ("social", "ADN SOCIAL"),
     ("purpose", "TU ESTRELLA POLAR"),
     ("wow", "WOW PRACTICE (1 minuto)")]
  else
    [("core", "THE CORE"),
     ("engine", "YOUR EMOTIONAL ENGINE"),
     ("mind", "YOUR MIND & VOICE"),
     ("drive", "HOW YOU ACT UNDER PRESSURE"),
     ("love", "YOUR LOVE PATTERN"),
     ("money", "YOUR VALUE & MONEY PATTERN"),
     ("shadow", "YOUR SHADOW LOOP"),
     ("strengths", "YOUR POWER MOVES"),
     ("timing", "YOUR TIMING LEVER"),
     ("health", "YOUR ENERGY HYGIENE"),
     ("social", "YOUR SOCIAL DNA"),
     ("purpose", "YOUR NORTH STAR"),
     ("wow", "WOW PRACTICE (1 minute)")]

/-- `I18N[lang]["fallback_soft"]`. -/
def fallback_soft (lang : String) : String :=
  if lang = "it" then
    "Alcune parti qui sono più “sottili”: non perché siano vaghe, ma perché nel tuo tema funzionano per sfumature."
  else if lang = "es" then
    "Algunas partes aquí son más sutiles: no porque sean vagas, sino porque en tu carta se expresan por matices."
  else
    "Some parts are more fluid right now — not because they’re vague, but because your chart expresses them through nuance."

/-! ## Section text generation (`src/main.py` lines 472-696)

`build_section_text` consumes the shared generator on the `pick` calls, so it
returns the advanced generator along with the text.  The `profile` argument is
the empty dict at every call site and is never read; `signature` is only read
into two locals (`dom_elem`, `dom_mod`, lines 495-496) that no generated text
uses. -/

def build_section_text (rng : RNG) (lang : String) (section_key : String)
    (topic : String) (signs : List (String × String))
    (profile : List (String × String)) (signature : Profile)
    (tensions : List String) : String × RNG :=
  let sun := sign_name (sget signs "sun") lang
  let moon := sign_name (sget signs "moon") lang
  let asc := sign_name (sget signs "ascendant") lang
  let mer := sign_name (sget signs "mercury") lang
  let ven := sign_name (sget signs "venus") lang
  let mar := sign_name (sget signs "mars") lang
  let jup := sign_name (sget signs "jupiter") lang
  let sat := sign_name (sget signs "saturn") lang
  let plu := sign_name (sget signs "pluto") lang
  let _nep := sign_name (sget signs "neptune") lang
  let _ura := sign_name (sget signs "uranus") lang
  let _dom_elem := signature.dominant_element
  let _dom_mod := signature.dominant_modality
  let _ := profile
  let _ := topic
  if lang = "it" then
    if section_key = "core" then
      (String.intercalate "\n"
        ["Il tuo Sole in " ++ sun ++ " non vive di promesse: vive di prove. Ti rispetti quando fai quello che hai detto.",
         "La Luna in " ++ moon ++ " non chiede “attenzione”: chiede coerenza emotiva. Se manca, ti indurisci o ti spegni.",
         "L’Ascendente in " ++ asc ++ " è la tua facciata: sembri controllato, ma dentro senti tutto più a fondo di quanto lasci vedere.",
         "Il punto chiave: non sei “una cosa sola”. Sei un equilibrio tra bisogno di solidità e fame di intensità."], rng)
    else if section_key = "engine" then
      let (line, rng2) := pick rng
        ["Le emozioni non ti travolgono: ti informano. Ma se le ignori troppo a lungo, diventano pressione.",
         "Il tuo cuore è selettivo: si apre quando percepisce presenza reale, non parole giuste.",
         "Senti prima di capire. E quando capisci, non riesci più a fingere."]
      let hook := "Se ti accorgi che stai ‘facendo il forte’, spesso è perché stai proteggendo un bisogno non detto."
      (line ++ "\n" ++ hook, rng2)
    else if section_key = "mind" then
      (String.intercalate "\n"
        ["Mercurio in " ++ mer ++ " indica come pensi e parli: la tua mente vuole chiarezza, non rumore.",
         "Quando sei centrato, sei essenziale: dici il vero senza ferire.",
         "Quando sei sotto pressione, cerchi la frase perfetta e rimandi la conversazione vera."], rng)
    else if section_key = "drive" then
      (String.intercalate "\n"
        ["Marte in " ++ mar ++ " è il modo in cui agisci: non scatti a caso, costruisci slancio con intenzione.",
         "Sotto stress puoi diventare iper-esigente: prima con te, poi con gli altri.",
         "La tua forza è la disciplina intelligente: piccole mosse ripetute, risultati inevitabili."], rng)
    else if section_key = "love" then
      (String.intercalate "\n"
        ["Venere in " ++ ven ++ " dice come ami: non ti basta ‘stare bene’, ti serve verità emotiva.",
         "La Luna in " ++ moon ++ " ti rende sensibile ai micro-segnali: coerenza, tempi, presenza.",
         "Quando qualcosa non torna, non chiedi subito: testi. È lì che perdi energia.",
         "Il tuo upgrade: chiedere prima. In modo semplice. Senza tribunali."], rng)
    else if section_key = "money" then
      (String.intercalate "\n"
        ["Il denaro per te è sicurezza + libertà. Giove in " ++ jup ++ " mostra dove puoi espanderti.",
         "Saturno in " ++ sat ++ " chiede regole: se non le crei tu, te le crea la vita (in modo più duro).",
         "Se il tuo flusso è altalenante, non è sfortuna: è identità che non ha ancora una strategia stabile."], rng)
    else if section_key = "shadow" then
      let (base, rng2) := pick rng
        ["La tua ombra non è “cattiva”: è una strategia di sopravvivenza che è diventata abitudine.",
         "Quando ti senti vulnerabile, provi a riprendere controllo. Il costo è la spontaneità.",
         "Il punto cieco non è l’emozione: è la gestione del potere personale."]
      let add :=
        (if plu ≠ "" then
          ["Plutone in " ++ plu ++ " intensifica tutto: se decidi, lo fai sul serio. Ma rischi ‘tutto o niente’."]
         else [])
        ++ (if "sun_moon_element_mismatch" ∈ tensions then
          ["Dentro convivono due linguaggi diversi: uno vuole solidità, l’altro vuole respiro. Se non li fai dialogare, si sabotano."]
         else [])
      (String.intercalate "\n" (base :: add), rng2)
    else if section_key = "strengths" then
      (String.intercalate "\n"
        ["Il tuo potere non è essere perfetto. È essere affidabile mentre resti umano.",
         "Quando integri mente + cuore + azione, diventi “impossibile da ignorare”.",
         "La tua mossa vincente: scegliere un obiettivo e togliere tutto il resto."], rng)
    else if section_key = "timing" then
      (String.intercalate "\n"
        ["Il timing per te è una leva: quando spingi troppo presto, consumi energia. Quando aspetti troppo, perdi slancio.",
         "Giove in " ++ jup ++ " indica quando ‘osare’. Saturno in " ++ sat ++ " indica quando ‘consolidare’.",
         "La regola pratica: espandi solo ciò che sai sostenere."], rng)
    else if section_key = "health" then
      (String.intercalate "\n"
        ["La tua energia non è infinita: funziona a cicli. Se la tratti come una macchina, si ribella.",
         "Ti ricarichi quando riduci stimoli e torni a una routine minima ma vera.",
         "Igiene energetica: sonno, cibo, movimento, confini. Non è glamour. È potere."], rng)
    else if section_key = "social" then
      (String.intercalate "\n"
        ["Nelle amicizie non cerchi quantità: cerchi qualità. Poche persone, ma vere.",
         "Se senti incoerenza, ti allontani senza spiegare troppo. È protezione, non freddezza.",
         "Il tuo equilibrio: dire una cosa in più prima di sparire."], rng)
    else if section_key = "purpose" then
      (String.intercalate "\n"
        ["Il tuo scopo non è “fare tanto”. È costruire qualcosa che regge nel tempo e ti somiglia.",
         "La bussola: impatto reale, reputazione pulita, crescita sostenibile.",
         "Quando smetti di dimostrare e inizi a scegliere, la direzione diventa ovvia."], rng)
    else if section_key = "wow" then
      pick rng
        ["Oggi: scrivi UNA frase vera che eviti da settimane. Poi fai UNA micro-azione coerente (10 minuti).",
         "Oggi: scegli un confine semplice e rispettalo. Non spiegarti troppo. La coerenza fa più rumore delle parole.",
         "Oggi: togli una cosa. Solo una. Il tuo focus è la tua magia."]
    else
      -- Unmatched key with lang "it" falls through the Italian chain and the
      -- English chain (none of whose conditions can hold for such a key) to
      -- the final `return I18N[lang]["fallback_soft"]` on line 696.
      (fallback_soft lang, rng)
  else if lang = "es" then
    if section_key = "core" then
      (String.intercalate "\n"
        ["Sol en " ++ sun ++ ": tu identidad no vive de ideas, vive de resultados. Te respetas cuando cumples lo que prometes.",
         "Luna en " ++ moon ++ ": tu mundo emocional necesita coherencia real, no palabras bonitas.",
         "Ascendente en " ++ asc ++ ": pareces controlado, pero por dentro sientes más profundo de lo que muestras.",
         "Clave: tu fuerza nace cuando alineas lo que sientes con lo que haces."], rng)
    else if section_key = "wow" then
      pick rng
        ["Hoy: di una verdad en UNA frase. Sin historia. Luego haz UNA acción pequeña que la respete.",
         "Hoy: elige un límite simple y cúmplelo. La coherencia te devuelve poder."]
    else
      -- Line 606: every other Spanish section returns the soft fallback.
      (fallback_soft lang, rng)
  else
    if section_key = "core" then
      (String.intercalate "\n"
        ["Sun in " ++ sun ++ " is your identity engine: you don’t run on vibes — you run on outcomes.",
         "Moon in " ++ moon ++ " is your emotional truth: you need consistency, not just intensity.",
         "Ascendant in " ++ asc ++ " is your social armor: you look composed while carrying more depth than people assume.",
         "Your edge is integration: when mind + heart + action align, you become undeniable."], rng)
    else if section_key = "engine" then
      pick rng
        ["Your emotions don’t overwhelm you — they inform you. But ignored feelings become pressure.",
         "You read micro-signals. When something is off, you feel it before you can explain it.",
         "Your heart is selective: it opens for presence, not performance."]
    else if section_key = "mind" then
      (String.intercalate "\n"
        ["Mercury in " ++ mer ++ " shapes your thinking: you want clarity, not noise.",
         "When centered, you speak clean truth without cruelty.",
         "Under stress, you chase the perfect sentence and delay the real conversation."], rng)
    else if section_key = "drive" then
      (String.intercalate "\n"
        ["Mars in " ++ mar ++ " is your action style: intentional, improvement-driven, not random.",
         "Under pressure you can become demanding — first with yourself, then with others.",
         "Your strength is intelligent discipline: small repeated moves that compound."], rng)
    else if section_key = "love" then
      (String.intercalate "\n"
        ["Venus in " ++ ven ++ " shows your love pattern: you don’t want ‘nice’. You want real.",
         "Moon in " ++ moon ++ " makes you sensitive to consistency: timing, effort, follow-through.",
         "When something feels unclear, you may test instead of asking — that’s where energy leaks.",
         "Upgrade: ask early, simply, once. No courtroom. Just truth."], rng)
    else if section_key = "money" then
      (String.intercalate "\n"
        ["Money for you is security + freedom. Jupiter in " ++ jup ++ " shows where expansion is natural.",
         "Saturn in " ++ sat ++ " demands structure: if you don’t build rules, life builds them for you.",
         "If your flow swings, it’s rarely luck — it’s identity without a stable strategy yet."], rng)
    else if section_key = "shadow" then
      let (base, rng2) := pick rng
        ["Your shadow isn’t ‘bad’ — it’s an old survival strategy that became a habit.",
         "When you feel vulnerable, you reach for control. The cost is spontaneity.",
         "The blind spot isn’t emotion — it’s power management."]
      let add :=
        (if plu ≠ "" then
          ["Pluto in " ++ plu ++ " intensifies your inner stakes: you transform in ‘all-in’ moments — watch the all-or-nothing reflex."]
         else [])
        ++ (if "sun_moon_element_mismatch" ∈ tensions then
          ["Two inner languages coexist: one wants stability, the other wants space. If they don’t talk, they sabotage."]
         else [])
      (String.intercalate "\n" (base :: add), rng2)
    else if section_key = "strengths" then
      (String.intercalate "\n"
        ["Your power isn’t perfection — it’s reliability with emotional honesty.",
         "When you integrate mind + heart + action, you become impossible to ignore.",
         "Your power move: pick one outcome and remove everything else."], rng)
    else if section_key = "timing" then
      (String.intercalate "\n"
        ["Timing is leverage: push too early and you burn energy; wait too long and you lose momentum.",
         "Jupiter in " ++ jup ++ " shows when to expand. Saturn in " ++ sat ++ " shows when to consolidate.",
         "Rule: only expand what you can sustain."], rng)
    else if section_key = "health" then
      (String.intercalate "\n"
        ["Your energy runs in cycles. Treat it like a machine and it pushes back.",
         "You recharge by reducing inputs and returning to a minimal, real routine.",
         "Energy hygiene: sleep, food, movement, boundaries. Not glamorous — powerful."], rng)
    else if section_key = "social" then
      (String.intercalate "\n"
        ["You don’t do ‘many friends’. You do real ones.",
         "If you sense inconsistency, you step back fast — protection, not coldness.",
         "Your balance: say one more thing before disappearing."], rng)
    else if section_key = "purpose" then
      (String.intercalate "\n"
        ["Purpose isn’t ‘do more’. It’s build what lasts — and looks like you.",
         "Compass: real impact, clean reputation, sustainable growth.",
         "When you stop proving and start choosing, direction becomes obvious."], rng)
    else if section_key = "wow" then
      pick rng
        ["Today: write ONE avoided truth in one sentence. Then do ONE 10-minute action that matches it.",
         "Today: set one simple boundary and keep it. Don’t over-explain. Consistency is loud.",
         "Today: remove one thing. Focus is your magic."]
    else
      (fallback_soft lang, rng)

/-! ## Day bucket (`src/main.py` lines 722-728)

`datetime.fromisoformat` / `strftime` are Python standard library; the model
below validates the common ISO-8601 shapes `YYYY-MM-DD[{T, }HH[:MM[:SS[.f]]]]
[±HH:MM]` and returns the `%Y-%m-%d` date prefix on success, `Option.none`
(Python: `ValueError`) otherwise.  The theorems below rely only on the failure
branch being silent, not on the exact accepted grammar. -/

/-- Numeric value of a digit list. -/
def digitsToNat (cs : List Char) : ℕ :=
  cs.foldl (fun n c => n * 10 + (c.toNat - 48)) 0

/-- Day count of a month in the proleptic Gregorian calendar. -/
def daysInMonth (y m : ℕ) : ℕ :=
  if m = 2 then (if y % 4 = 0 ∧ (y % 100 ≠ 0 ∨ y % 400 = 0) then 29 else 28)
  else if m ∈ [4, 6, 9, 11] then 30
  else 31

/-- Validity of the 10-character `YYYY-MM-DD` prefix. -/
def validDate : List Char → Bool
  | [y1, y2, y3, y4, s1, m1, m2, s2, d1, d2] =>
    y1.isDigit && y2.isDigit && y3.isDigit && y4.isDigit && s1 = '-' &&
    m1.isDigit && m2.isDigit && s2 = '-' && d1.isDigit && d2.isDigit &&
    (let m := digitsToNat [m1, m2]
     let d := digitsToNat [d1, d2]
     let y := digitsToNat [y1, y2, y3, y4]
     decide (1 ≤ m ∧ m ≤ 12 ∧ 1 ≤ d ∧ d ≤ daysInMonth y m ∧ 1 ≤ y))
  | _ => false

/-- A two-digit group bounded by `bound`. -/
def twoDigitLE (a b : Char) (bound : ℕ) : Bool :=
  a.isDigit && b.isDigit && decide (digitsToNat [a, b] ≤ bound)

/-- Validity of the clock part `HH[:MM[:SS[.1-6 digits]]]`. -/
def validClock : List Char → Bool
  | [h1, h2] => twoDigitLE h1 h2 23
  | [h1, h2, c, m1, m2] => twoDigitLE h1 h2 23 && c = ':' && twoDigitLE m1 m2 59
  | [h1, h2, c1, m1, m2, c2, s1, s2] =>
    twoDigitLE h1 h2 23 && c1 = ':' && twoDigitLE m1 m2 59 && c2 = ':' &&
    twoDigitLE s1 s2 59
  | h1 :: h2 :: c1 :: m1 :: m2 :: c2 :: s1 :: s2 :: dot :: frac =>
    twoDigitLE h1 h2 23 && c1 = ':' && twoDigitLE m1 m2 59 && c2 = ':' &&
    twoDigitLE s1 s2 59 && dot = '.' && frac.all Char.isDigit &&
    decide (1 ≤ frac.length ∧ frac.length ≤ 6)
  | _ => false

/-- Validity of the UTC-offset suffix `±HH:MM` (or no suffix). -/
def validOffset : List Char → Bool
  | [] => true
  | [sgn, h1, h2, c, m1, m2] =>
    (sgn = '+' || sgn = '-') && c = ':' && h1.isDigit && h2.isDigit &&
    m1.isDigit && m2.isDigit &&
    decide (digitsToNat [h1, h2] ≤ 23 ∧ digitsToNat [m1, m2] ≤ 59)
  | _ => false

/-- Validity of everything after the date: empty, or a `T`/space separator,
a clock, and an optional offset. -/
def validTimeTail : List Char → Bool
  | [] => true
  | c :: rest =>
    (c = 'T' || c = ' ') &&
    (let clock := rest.takeWhile (fun x => !(x = '+' || x = '-'))
     let off := rest.dropWhile (fun x => !(x = '+' || x = '-'))
     validClock clock && validOffset off)

/-- Model of `datetime.fromisoformat(s).strftime("%Y-%m-%d")`:
the date prefix when `s` parses, `Option.none` when Python would raise. -/
def parse_iso_day (s : String) : Option String :=
  let cs := s.data
  if validDate (cs.take 10) && validTimeTail (cs.drop 10) then
    some (String.mk (cs.take 10))
  else Option.none

/-- The `day_key` computation (lines 722-728): empty when no timestamp is
given, when the string is empty (falsy), or when parsing raises; otherwise the
calendar day of the parsed timestamp after `replace("Z", "+00:00")`. -/
def day_key_of (now_iso : Option String) : String :=
  match now_iso with
  | Option.none => ""
  | some s =>
    if s = "" then ""
    else
      match parse_iso_day (pyReplace s "Z" "+00:00") with
      | some d => d
      | Option.none => ""

/-! ## Reading assembly (`src/main.py` lines 699-799) -/

/-- The deep-depth extension table (lines 737-745). -/
def extra_map : List (String × List String) :=
  [("love", ["money"]), ("career", ["shadow"]), ("money", ["strengths"]),
   ("shadow", ["engine"]), ("purpose", ["timing"]),
   ("communication", ["social"]), ("personal", ["purpose"])]

/-- Python `focus.insert(-1, k)`: insert before the last element. -/
def insert_before_last (l : List String) (k : String) : List String :=
  l.take (l.length - 1) ++ k :: l.drop (l.length - 1)

/-- The ordered section-key list for a (clamped) topic and depth
(lines 734-748): the topic's `TOPIC_FOCUS` row, plus — at deep depth — the
topic's `extra_map` keys (default `["shadow"]`) inserted before the trailing
`"wow"` key, skipping keys already present. -/
def focus_of (topic : String) (depth : String) : List String :=
  let focus := (TOPIC_FOCUS.lookup topic).getD ((TOPIC_FOCUS.lookup "personal").getD [])
  if depth = "deep" then
    ((extra_map.lookup topic).getD ["shadow"]).foldl
      (fun f k => if k ∉ f ∧ k ≠ "wow" then insert_before_last f k else f) focus
  else focus

/-- One rendered section (the dicts appended on line 765). -/
structure RSection where
  key : String
  title : String
  text : String
deriving DecidableEq, Repr

/-- The section-rendering loop (lines 750-765): walks the focus keys, skips
`"wow"`, renders each section with the threaded generator. -/
def build_sections (lang : String) (topic : String) (signs : List (String × String))
    (sig : Profile) (tens : List String) : List String → RNG → List RSection × RNG
  | [], rng => ([], rng)
  | k :: ks, rng =>
    if k = "wow" then build_sections lang topic signs sig tens ks rng
    else
      let sec_title := ((sec_tbl lang).lookup k).getD k.toUpper
      let (txt, rng2) := build_section_text rng lang k topic signs [] sig tens
      let (rest, rng3) := build_sections lang topic signs sig tens ks rng2
      ({ key := k, title := sec_title, text := txt } :: rest, rng3)

/-- The reading payload returned by `build_wow_reading` (lines 786-799); the
three `meta` entries are inlined as fields. -/
structure Reading where
  topic : String
  lang : String
  depth : String
  title : String
  sections : List RSection
  wow_practice : String
  text : String
  meta_dominant_element : Option String
  meta_dominant_modality : Option String
  meta_tensions : List String
deriving DecidableEq, Repr

/-- `build_wow_reading` (lines 699-799). -/
def build_wow_reading (topic0 : String) (lang0 : String) (chart : PyVal)
    (depth0 : String) (now_iso : Option String) : Reading :=
  let lang := clamp_lang (some lang0)
  let topic := clamp_topic (some topic0)
  let depth := if depth0 ∈ ["standard", "deep"] then depth0 else "standard"
  let signs := PLANETS.map (fun p => (p, normalize_sign_en (safe_get_sign chart p)))
      ++ [("ascendant", normalize_sign_en (safe_get_sign chart "ascendant"))]
  let sig := element_modality_profile signs
  let tens := key_tensions signs
  let base_sig := chart_signature chart
  let day_key := day_key_of now_iso
  let rng := stable_rng [base_sig, topic, lang, day_key]
  let title := ((titles_tbl lang).lookup topic).getD (((titles_tbl lang).lookup "personal").getD "")
  let focus := focus_of topic depth
  let secs := build_sections lang topic signs sig tens focus rng
  let wow := build_section_text secs.2 lang "wow" topic signs [] sig tens
  let joined := [title, ""]
      ++ secs.1.flatMap (fun s => [s.title ++ "\n" ++ s.text, ""])
      ++ [((sec_tbl lang).lookup "wow").getD "" ++ "\n" ++ wow.1]
  let text := (String.intercalate "\n" joined).trim
  { topic := topic, lang := lang, depth := depth, title := title,
    sections := secs.1, wow_practice := wow.1, text := text,
    meta_dominant_element := sig.dominant_element,
    meta_dominant_modality := sig.dominant_modality,
    meta_tensions := tens }

/-! ## Specification-side definitions

These follow the spec's words, for comparison with the definitions above
that were translated from the source. -/

/-- Spec §3: `sign = signs[floor(longitude/30)]` after normalizing the
longitude modulo 360 into `[0,360)`.  The mathematical reduction of a
rational into `[0,360)` is `lon - 360*⌊lon/360⌋`. -/
def spec_sign_index (lon : ℚ) : ℤ := ⌊(lon - 360 * ⌊lon / 360⌋) / 30⌋

/-- Spec §3 "ties broken … first-max wins": the first key of the enumeration
attaining the maximum score. -/
def firstMaxKey (f : String → ℚ) (keys : List String) : Option String :=
  keys.find? (fun k => keys.all (fun j => decide (f j ≤ f k)))

/-- Spec §3: the element tally — each placement with a recognized sign
contributes its body's importance weight to its sign's element. -/
def specElemScore : List (String × String) → String → ℚ
  | [], _ => 0
  | (p, s) :: rest, e =>
    (if s ≠ "" ∧ ELEMENT.lookup s = some e then planetWeight p else 0)
      + specElemScore rest e

/-- Spec §3: the modality tally. -/
def specModScore : List (String × String) → String → ℚ
  | [], _ => 0
  | (p, s) :: rest, m =>
    (if s ≠ "" ∧ MODALITY.lookup s = some m then planetWeight p else 0)
      + specModScore rest m

/-! ## Proof-support definitions -/

/-- One dict update of the profile loop, generic in the lookup table
(`ELEMENT` or `MODALITY`): `profile_step` acts as `stepT ELEMENT` on the
element scores and `stepT MODALITY` on the modality scores. -/
def stepT (tbl : List (String × String)) (acc : List (String × ℚ)) (ps : String × String) :
    List (String × ℚ) :=
  if ps.2 = "" then acc
  else
    match tbl.lookup ps.2 with
    | some e => bump acc e (planetWeight ps.1)
    | Option.none => acc

/-- The weighted tally, generic in the lookup table. -/
def specScoreT (tbl : List (String × String)) : List (String × String) → String → ℚ
  | [], _ => 0
  | (p, s) :: rest, e =>
    (if s ≠ "" ∧ tbl.lookup s = some e then planetWeight p else 0)
      + specScoreT tbl rest e

/-- The sign assignment of a chart in which every placement is missing. -/
def empty_signs : List (String × String) :=
  (PLANETS ++ ["ascendant"]).map (fun p => (p, ""))

/-! ## Arithmetic lemmas for longitude normalization -/

theorem pymod_eq_mul_fract (a b : ℚ) (hb : b ≠ 0) : pymod a b = b * Int.fract (a / b) := by
  unfold pymod
  rw [Int.fract]
  field_simp

theorem pymod_nonneg (a b : ℚ) (hb : 0 < b) : 0 ≤ pymod a b := by
  rw [pymod_eq_mul_fract a b hb.ne']
  exact mul_nonneg hb.le (Int.fract_nonneg _)

theorem pymod_lt (a b : ℚ) (hb : 0 < b) : pymod a b < b := by
  rw [pymod_eq_mul_fract a b hb.ne']
  calc b * Int.fract (a / b) < b * 1 := mul_lt_mul_of_pos_left (Int.fract_lt_one _) hb
    _ = b := mul_one b

theorem spec_sign_index_eq_floor (lon : ℚ) : spec_sign_index lon = ⌊pymod lon 360 / 30⌋ := rfl

theorem zodiac_eq_spec (lon : ℚ) : zodiac_sign_index lon = spec_sign_index lon := by
  have h0 : (0 : ℚ) ≤ pymod lon 360 := pymod_nonneg lon 360 (by norm_num)
  have hfl : (0 : ℤ) ≤ ⌊pymod lon 360 / 30⌋ :=
    Int.floor_nonneg.mpr (div_nonneg h0 (by norm_num))
  unfold zodiac_sign_index pyint pyfloordiv
  rw [if_pos (by exact_mod_cast hfl), Int.floor_intCast]
  rfl

theorem spec_sign_index_nonneg (lon : ℚ) : 0 ≤ spec_sign_index lon := by
  rw [spec_sign_index_eq_floor]
  exact Int.floor_nonneg.mpr (div_nonneg (pymod_nonneg lon 360 (by norm_num)) (by norm_num))

theorem spec_sign_index_lt (lon : ℚ) : spec_sign_index lon < 12 := by
  rw [spec_sign_index_eq_floor]
  refine Int.floor_lt.mpr ?_
  rw [div_lt_iff₀ (by norm_num : (0:ℚ) < 30)]
  calc pymod lon 360 < 360 := pymod_lt lon 360 (by norm_num)
    _ = (12 : ℤ) * 30 := by norm_num

theorem degree_nonneg (lon : ℚ) :
    0 ≤ pymod lon 360 - 30 * (spec_sign_index lon : ℚ) := by
  rw [spec_sign_index_eq_floor]
  have h := Int.floor_le (pymod lon 360 / 30)
  have h2 : (30 : ℚ) * (⌊pymod lon 360 / 30⌋ : ℚ) ≤ 30 * (pymod lon 360 / 30) := by
    exact mul_le_mul_of_nonneg_left h (by norm_num)
  have h3 : (30 : ℚ) * (pymod lon 360 / 30) = pymod lon 360 := by ring
  linarith

theorem degree_lt (lon : ℚ) :
    pymod lon 360 - 30 * (spec_sign_index lon : ℚ) < 30 := by
  rw [spec_sign_index_eq_floor]
  have h := Int.lt_floor_add_one (pymod lon 360 / 30)
  have h2 : (30 : ℚ) * (pymod lon 360 / 30) < 30 * ((⌊pymod lon 360 / 30⌋ : ℚ) + 1) :=
    mul_lt_mul_of_pos_left h (by norm_num)
  have h3 : (30 : ℚ) * (pymod lon 360 / 30) = pymod lon 360 := by ring
  linarith

/-! ## Claim C1 -/

/-- C1 (code bug evidence): resolving the timezone of a `BirthInput` with `tz`
absent — or empty — does not produce the intended 422 `ValidationError`;
the missing-timezone branch evaluates the undefined name `HTTPEException`
(line 343), which raises a `NameError` that the framework surfaces as a 500
internal error.  The code never assumes UTC and never infers from
coordinates — it always fails here — but with the wrong failure kind. -/
theorem resolve_tz_missing_raises_name_error :
    resolve_tz_name { date := "2000-01-01", time := "12:00" }
      = .error (.nameError "HTTPEException") ∧
    resolve_tz_name { date := "2000-01-01", time := "12:00", tz := some "" }
      = .error (.nameError "HTTPEException") ∧
    ∀ st d, resolve_tz_name { date := "2000-01-01", time := "12:00" }
      ≠ .error (.httpException st d) := by
  refine ⟨rfl, rfl, ?_⟩
  intro st d
  simp [resolve_tz_name]

/-! ## Claim C4 -/

/-- C4: for every raw longitude — negative or at/above 360 included — the
stored sign is `SIGNS_EN[⌊(lon mod 360)/30⌋]`: the code's index equals the
spec's formula, normalization lands in `[0,360)` first, and the index is
always a valid position of the 12-sign list. -/
theorem sign_derivation_normalizes_first (lon : ℚ) :
    0 ≤ pymod lon 360 ∧ pymod lon 360 < 360 ∧
    zodiac_sign_index lon = spec_sign_index lon ∧
    0 ≤ spec_sign_index lon ∧ spec_sign_index lon < 12 ∧
    (placement_entry lon).lookup "sign"
      = some (JVal.str (SIGNS_EN.getD (spec_sign_index lon).toNat "")) := by
  refine ⟨pymod_nonneg _ _ (by norm_num), pymod_lt _ _ (by norm_num),
    zodiac_eq_spec lon, spec_sign_index_nonneg lon, spec_sign_index_lt lon, ?_⟩
  unfold placement_entry
  rw [zodiac_eq_spec lon]
  simp [List.lookup]

/-! ## Claim C2 -/

/-- C2 (counterexample): the chart pipeline's placements carry only
`longitude` and `sign`; at the concrete adapter longitude 234.5 the sun's
placement has no `degreeInSign` entry at all, so the claimed
`degreeInSign ∈ [0,30)` value is absent from every produced chart. -/
theorem placement_has_no_degree_in_sign :
    (compute_chart_placements (fun _ => 2345 / 10) (789 / 10)).lookup "sun"
      = some (placement_entry (2345 / 10)) ∧
    (placement_entry (2345 / 10)).lookup "degreeInSign" = Option.none ∧
    (placement_entry (2345 / 10)).map Prod.fst = ["longitude", "sign"] := by
  refine ⟨?_, rfl, rfl⟩
  rfl

/-- C2 (amended): every placement produced by the pipeline has exactly the
keys `longitude` and `sign` (no `degreeInSign` field); the *implied* degree
`(lon mod 360) - 30*sign_index` lies in `[0,30)` and reconstructs the
normalized longitude exactly, and the stored sign is consistent with the
sign index. -/
theorem placement_fields_and_degree_roundtrip (bodyLons : String → ℚ) (ascLon : ℚ)
    (name : String) (pl : List (String × JVal))
    (h : (name, pl) ∈ compute_chart_placements bodyLons ascLon) :
    pl.map Prod.fst = ["longitude", "sign"] ∧
    pl.lookup "degreeInSign" = Option.none ∧
    ∃ lon : ℚ, pl = placement_entry lon ∧
      pl.lookup "sign" = some (JVal.str (SIGNS_EN.getD (spec_sign_index lon).toNat "")) ∧
      0 ≤ pymod lon 360 - 30 * (spec_sign_index lon : ℚ) ∧
      pymod lon 360 - 30 * (spec_sign_index lon : ℚ) < 30 ∧
      30 * (spec_sign_index lon : ℚ) + (pymod lon 360 - 30 * (spec_sign_index lon : ℚ))
        = pymod lon 360 := by
  have hpl : ∃ lon : ℚ, pl = placement_entry lon := by
    unfold compute_chart_placements at h
    rcases List.mem_append.mp h with hm | hm
    · rcases List.mem_map.mp hm with ⟨nm, _, heq⟩
      exact ⟨bodyLons nm, (congrArg Prod.snd heq).symm⟩
    · simp only [List.mem_singleton] at hm
      exact ⟨ascLon, congrArg Prod.snd hm⟩
  rcases hpl with ⟨lon, rfl⟩
  refine ⟨rfl, rfl, lon, rfl, ?_, degree_nonneg lon, degree_lt lon, by ring⟩
  unfold placement_entry
  rw [zodiac_eq_spec lon]
  simp [List.lookup]

/-- C2 (amended, witness): the amended statement instantiated at the concrete
pipeline run with every adapter longitude 234.5 and ascendant 78.9, at the
sun's placement. -/
theorem placement_fields_witness :
    (placement_entry (2345 / 10)).map Prod.fst = ["longitude", "sign"] ∧
    (placement_entry (2345 / 10)).lookup "degreeInSign" = Option.none ∧
    ∃ lon : ℚ, placement_entry (2345 / 10) = placement_entry lon ∧
      (placement_entry (2345 / 10)).lookup "sign"
        = some (JVal.str (SIGNS_EN.getD (spec_sign_index lon).toNat "")) ∧
      0 ≤ pymod lon 360 - 30 * (spec_sign_index lon : ℚ) ∧
      pymod lon 360 - 30 * (spec_sign_index lon : ℚ) < 30 ∧
      30 * (spec_sign_index lon : ℚ) + (pymod lon 360 - 30 * (spec_sign_index lon : ℚ))
        = pymod lon 360 :=
  placement_fields_and_degree_roundtrip (fun _ => 2345 / 10) (789 / 10) "sun"
    (placement_entry (2345 / 10))
    (by
      unfold compute_chart_placements
      refine List.mem_append.mpr (Or.inl ?_)
      exact List.mem_map.mpr ⟨"sun", by decide, rfl⟩)

/-! ## Clamp lemmas (C7) -/

theorem topics_fixed_by_normalization : ∀ x ∈ TOPICS, pyStrip (pyLower x) = x ∧ x ≠ "" := by
  decide

theorem langs_fixed_by_normalization :
    ∀ x ∈ ["en", "it", "es"], pyStrip (pyLower x) = x ∧ x ≠ "" := by
  decide

theorem clamp_topic_mem (s : Option String) : clamp_topic s ∈ TOPICS := by
  simp only [clamp_topic]
  split
  · assumption
  · decide

theorem clamp_lang_mem (s : Option String) : clamp_lang s ∈ ["en", "it", "es"] := by
  simp only [clamp_lang]
  split
  · assumption
  · decide

/-! ## Claim C7 -/

/-- C7 (counterexample): `clamp_topic` and `clamp_lang` lower-case and strip
before the membership test.  The input `"LOVE"` is not in the supported
topic set, yet clamping returns `"love"` — neither the input nor the default
`"personal"` — so "returns the input when supported, the default otherwise"
is false as stated.  Likewise `"IT"` clamps to `"it"`, not to the default
language. -/
theorem clamp_case_insensitive_counterexample :
    clamp_topic (some "LOVE") = "love" ∧
    "LOVE" ∉ TOPICS ∧
    clamp_topic (some "LOVE") ≠ "LOVE" ∧
    clamp_topic (some "LOVE") ≠ "personal" ∧
    clamp_lang (some "IT") = "it" ∧
    "IT" ∉ ["en", "it", "es"] ∧
    clamp_lang (some "IT") ≠ "IT" ∧
    clamp_lang (some "IT") ≠ "en" := by
  decide

/-- C7 (amended): clamping first lower-cases and strips the input; it returns
that normalized string when it is in the supported set and the default
(`"personal"` / `"en"`) otherwise.  In particular an input already in the
supported set is returned unchanged.  Both clamps are total functions into
their supported sets — they never raise. -/
theorem clamp_normalizes_and_never_raises (s : Option String) :
    clamp_topic s ∈ TOPICS ∧
    clamp_lang s ∈ ["en", "it", "es"] ∧
    (∀ x, s = some x → x ∈ TOPICS → clamp_topic s = x) ∧
    (∀ x, s = some x → pyStrip (pyLower x) ∉ TOPICS → clamp_topic s = "personal") ∧
    (∀ x, s = some x → x ∈ ["en", "it", "es"] → clamp_lang s = x) ∧
    (∀ x, s = some x → x ≠ "" → pyStrip (pyLower x) ∉ ["en", "it", "es"] →
      clamp_lang s = "en") := by
  refine ⟨clamp_topic_mem s, clamp_lang_mem s, ?_, ?_, ?_, ?_⟩
  · intro x hs hx
    subst hs
    obtain ⟨hfix, hne⟩ := topics_fixed_by_normalization x hx
    simp only [clamp_topic, pyOrStr, if_neg hne, hfix]
    exact if_pos hx
  · intro x hs hnot
    subst hs
    by_cases hx0 : x = ""
    · subst hx0
      decide
    · simp only [clamp_topic, pyOrStr, if_neg hx0]
      exact if_neg hnot
  · intro x hs hx
    subst hs
    obtain ⟨hfix, hne⟩ := langs_fixed_by_normalization x hx
    simp only [clamp_lang, pyOrStr, if_neg hne, hfix]
    exact if_pos hx
  · intro x hs hx0 hnot
    subst hs
    simp only [clamp_lang, pyOrStr, if_neg hx0]
    exact if_neg hnot

/-- C7 (amended, witness): the amended statement applied at the in-set topic
`"love"` and the unsupported language `"xx"`. -/
theorem clamp_normalizes_witness :
    clamp_topic (some "love") = "love" ∧ clamp_lang (some "xx") = "en" :=
  ⟨(clamp_normalizes_and_never_raises (some "love")).2.2.1 "love" rfl (by decide),
   (clamp_normalizes_and_never_raises (some "xx")).2.2.2.2.2 "xx" rfl (by decide) (by decide)⟩

/-! ## Section-key lemmas (C5, C6) -/

/-- The rendered section keys are exactly the focus keys without `"wow"`,
whatever the generator state: the RNG influences texts only. -/
theorem build_sections_keys (lang topic : String) (signs : List (String × String))
    (sig : Profile) (tens : List String) :
    ∀ (ks : List String) (rng : RNG),
      (build_sections lang topic signs sig tens ks rng).1.map RSection.key
        = ks.filter (fun k => k != "wow") := by
  intro ks
  induction ks with
  | nil => intro rng; rfl
  | cons k t ih =>
    intro rng
    by_cases hk : k = "wow"
    · subst hk
      simp [build_sections, ih rng]
    · rcases hbt : build_section_text rng lang k topic signs [] sig tens with ⟨txt, rng2⟩
      rcases hbs : build_sections lang topic signs sig tens t rng2 with ⟨rest, rng3⟩
      have ihr := ih rng2
      rw [hbs] at ihr
      simp [build_sections, hk, hbt, hbs, ihr]

/-- The key list of a reading's sections, in terms of the focus table. -/
theorem reading_section_keys (topic lang : String) (chart : PyVal) (depth : String)
    (n : Option String) :
    (build_wow_reading topic lang chart depth n).sections.map RSection.key
      = (focus_of (clamp_topic (some topic))
          (if depth ∈ ["standard", "deep"] then depth else "standard")).filter
            (fun k => k != "wow") := by
  simp only [build_wow_reading]
  rw [build_sections_keys]

/-- For each supported topic, the deep focus list extends the standard one
and keeps the practice key last. -/
theorem focus_deep_extends : ∀ t ∈ TOPICS,
    (∀ k ∈ focus_of t "standard", k ∈ focus_of t "deep") ∧
    (focus_of t "standard").getLast? = some "wow" ∧
    (focus_of t "deep").getLast? = some "wow" := by
  decide

/-! ## Claim C5 -/

/-- C5: for every topic (clamped as the reading pipeline does) the deep
section-key list is a superset of the standard one, the practice key `"wow"`
is last in both, and consequently every rendered section key of a standard
reading also appears in the corresponding deep reading. -/
theorem deep_focus_superset (topic lang : String) (chart : PyVal) (n : Option String) :
    (∀ k ∈ focus_of (clamp_topic (some topic)) "standard",
        k ∈ focus_of (clamp_topic (some topic)) "deep") ∧
    (focus_of (clamp_topic (some topic)) "standard").getLast? = some "wow" ∧
    (focus_of (clamp_topic (some topic)) "deep").getLast? = some "wow" ∧
    (∀ k, k ∈ (build_wow_reading topic lang chart "standard" n).sections.map RSection.key →
        k ∈ (build_wow_reading topic lang chart "deep" n).sections.map RSection.key) := by
  obtain ⟨h1, h2, h3⟩ := focus_deep_extends (clamp_topic (some topic)) (clamp_topic_mem (some topic))
  refine ⟨h1, h2, h3, ?_⟩
  intro k hk
  rw [reading_section_keys] at hk ⊢
  simp only [List.mem_filter] at hk ⊢
  exact ⟨h1 k (by simpa using hk.1), hk.2⟩

/-- C5 (witness): the superset statement applied to the `"love"` topic, whose
deep extension adds the `"money"` section. -/
theorem deep_focus_superset_witness :
    "money" ∈ focus_of (clamp_topic (some "love")) "deep" ∧
    (focus_of (clamp_topic (some "love")) "deep").getLast? = some "wow" ∧
    "core" ∈ focus_of (clamp_topic (some "love")) "deep" :=
  ⟨by decide,
   (deep_focus_superset "love" "en" PyVal.none Option.none).2.2.1,
   (deep_focus_superset "love" "en" PyVal.none Option.none).1 "core" (by decide)⟩

/-! ## Claim C6 -/

/-- C6: varying only the "now" timestamp (hence the day bucket) leaves the
rendered section keys — set *and* order — unchanged: the seeded RNG never
decides which sections appear. -/
theorem section_keys_ignore_day_bucket (topic lang : String) (chart : PyVal)
    (depth : String) (n1 n2 : Option String) :
    (build_wow_reading topic lang chart depth n1).sections.map RSection.key
      = (build_wow_reading topic lang chart depth n2).sections.map RSection.key := by
  rw [reading_section_keys, reading_section_keys]

/-! ## Claim C3 -/

/-- C3: the reading is a deterministic function of the extracted sign
assignment, topic, language and day bucket.  Two invocations whose charts
agree on every extracted sign (identical charts in particular) and whose
remaining inputs are identical produce the same canonical signature, the same
seeded generator, and the same reading — flattened text included. -/
theorem reading_depends_only_on_extracted_signs (c1 c2 : PyVal)
    (topic lang depth : String) (n1 n2 : Option String)
    (hsigns : ∀ k ∈ PLANETS ++ ["ascendant"], safe_get_sign c1 k = safe_get_sign c2 k)
    (hn : n1 = n2) :
    chart_signature c1 = chart_signature c2 ∧
    stable_rng [chart_signature c1, clamp_topic (some topic), clamp_lang (some lang),
        day_key_of n1]
      = stable_rng [chart_signature c2, clamp_topic (some topic), clamp_lang (some lang),
        day_key_of n2] ∧
    build_wow_reading topic lang c1 depth n1 = build_wow_reading topic lang c2 depth n2 := by
  subst hn
  have hC : chart_signature c1 = chart_signature c2 := by
    unfold chart_signature
    congr 1
    apply List.map_congr_left
    intro k hk
    rw [hsigns k hk]
  have hS : (PLANETS.map (fun p => (p, normalize_sign_en (safe_get_sign c1 p)))
        ++ [("ascendant", normalize_sign_en (safe_get_sign c1 "ascendant"))])
      = (PLANETS.map (fun p => (p, normalize_sign_en (safe_get_sign c2 p)))
        ++ [("ascendant", normalize_sign_en (safe_get_sign c2 "ascendant"))]) := by
    congr 1
    · apply List.map_congr_left
      intro p hp
      rw [hsigns p (List.mem_append.mpr (Or.inl hp))]
    · rw [hsigns "ascendant" (by simp)]
  refine ⟨hC, by rw [hC], ?_⟩
  simp only [build_wow_reading, hC, hS]

/-- C3 (witness): two concrete charts that differ in an ignored field but
expose the same signs yield the identical reading. -/
theorem reading_deterministic_witness :
    build_wow_reading "love" "en"
        (PyVal.dict [("planets", PyVal.dict [("sun", PyVal.str "Aries"),
          ("moon", PyVal.str "Leo")]), ("houses", PyVal.str "a")])
        "standard" (some "2024-05-06T07:08:09Z")
      = build_wow_reading "love" "en"
        (PyVal.dict [("planets", PyVal.dict [("sun", PyVal.str "Aries"),
          ("moon", PyVal.str "Leo")]), ("houses", PyVal.str "b")])
        "standard" (some "2024-05-06T07:08:09Z") :=
  (reading_depends_only_on_extracted_signs _ _ "love" "en" "standard" _ _
    (by decide) rfl).2.2

/-! ## Claim C10 -/

/-- C10: a present but unparseable "now" timestamp is silently treated as an
empty day bucket — the reading equals the one produced with no timestamp at
all, and no error is raised. -/
theorem invalid_now_iso_is_silently_ignored (topic lang : String) (chart : PyVal)
    (depth : String) (s : String)
    (h : parse_iso_day (pyReplace s "Z" "+00:00") = Option.none) :
    build_wow_reading topic lang chart depth (some s)
      = build_wow_reading topic lang chart depth Option.none := by
  have hd : day_key_of (some s) = day_key_of Option.none := by
    by_cases hs : s = ""
    · subst hs; rfl
    · simp [day_key_of, hs, h]
  simp only [build_wow_reading, hd]

/-- C10 (witness): the concrete garbage timestamp `"not-a-timestamp"` yields
exactly the no-timestamp reading. -/
theorem invalid_now_iso_witness :
    build_wow_reading "career" "en"
        (PyVal.dict [("planets", PyVal.dict [("sun", PyVal.str "Leo")])])
        "standard" (some "not-a-timestamp")
      = build_wow_reading "career" "en"
        (PyVal.dict [("planets", PyVal.dict [("sun", PyVal.str "Leo")])])
        "standard" Option.none :=
  invalid_now_iso_is_silently_ignored "career" "en"
    (PyVal.dict [("planets", PyVal.dict [("sun", PyVal.str "Leo")])])
    "standard" "not-a-timestamp" (by decide)

/-! ## Pick lemma and claim C8 -/

theorem getD_mod_mem {l : List String} (i : ℕ) (h : l ≠ []) :
    l.getD (i % l.length) "" ∈ l := by
  have hl : 0 < l.length := List.length_pos.mpr h
  have hlt : i % l.length < l.length := Nat.mod_lt _ hl
  rw [List.getD_eq_getElem?_getD, List.getElem?_eq_getElem hlt]
  exact List.getElem_mem hlt

/-- `pick` returns an element of a nonempty candidate list, whatever the
generator state. -/
theorem pick_mem (st : RNG) (l : List String) (h : l ≠ []) : (pick st l).1 ∈ l := by
  unfold pick RNG.randrange RNG.next
  exact getD_mod_mem _ h

/-- C8 (counterexample): with every placement missing, the English `core`
generator does not omit the affected sentences and substitutes no neutral
fallback phrase — it renders each sentence with an empty slot where the sign
name would go ("Sun in  is …"). -/
theorem missing_sign_sentence_not_omitted :
    (build_section_text (stable_rng ["", "personal", "en", ""]) "en" "core" "personal"
        empty_signs [] (element_modality_profile empty_signs)
        (key_tensions empty_signs)).1
      = "Sun in  is your identity engine: you don’t run on vibes — you run on outcomes.\nMoon in  is your emotional truth: you need consistency, not just intensity.\nAscendant in  is your social armor: you look composed while carrying more depth than people assume.\nYour edge is integration: when mind + heart + action align, you become undeniable." ∧
    (build_section_text (stable_rng ["", "personal", "en", ""]) "en" "core" "personal"
        empty_signs [] (element_modality_profile empty_signs)
        (key_tensions empty_signs)).1
      ≠ fallback_soft "en" := by
  constructor
  · rfl
  · decide

/-- C8 (amended): the generators never raise (they are total functions), and
with every placement missing they return chart-independent text for every
generator state: the English core section keeps its sentences with empty sign
slots rather than omitting them, while the shadow section omits the Pluto
sentence entirely and falls back to one of its three fixed base variants. -/
theorem missing_sign_graceful_degradation (st : RNG) :
    (build_section_text st "en" "core" "personal" empty_signs []
        (element_modality_profile empty_signs) (key_tensions empty_signs)).1
      = "Sun in  is your identity engine: you don’t run on vibes — you run on outcomes.\nMoon in  is your emotional truth: you need consistency, not just intensity.\nAscendant in  is your social armor: you look composed while carrying more depth than people assume.\nYour edge is integration: when mind + heart + action align, you become undeniable." ∧
    (build_section_text st "en" "shadow" "personal" empty_signs []
        (element_modality_profile empty_signs) (key_tensions empty_signs)).1
      ∈ ["Your shadow isn’t ‘bad’ — it’s an old survival strategy that became a habit.",
         "When you feel vulnerable, you reach for control. The cost is spontaneity.",
         "The blind spot isn’t emotion — it’s power management."] := by
  constructor
  · rfl
  · have heq : (build_section_text st "en" "shadow" "personal" empty_signs []
        (element_modality_profile empty_signs) (key_tensions empty_signs)).1
      = String.intercalate "\n"
          [(pick st
            ["Your shadow isn’t ‘bad’ — it’s an old survival strategy that became a habit.",
             "When you feel vulnerable, you reach for control. The cost is spontaneity.",
             "The blind spot isn’t emotion — it’s power management."]).1] := rfl
    rw [heq]
    have hm := pick_mem st
      ["Your shadow isn’t ‘bad’ — it’s an old survival strategy that became a habit.",
       "When you feel vulnerable, you reach for control. The cost is spontaneity.",
       "The blind spot isn’t emotion — it’s power management."] (by decide)
    simp only [List.mem_cons, List.not_mem_nil, or_false] at hm
    rcases hm with h | h | h <;> rw [h] <;> decide

/-- C8 (amended, witness): the amended statement at a concrete generator
state. -/
theorem missing_sign_graceful_witness :
    (build_section_text (stable_rng ["w"]) "en" "core" "personal" empty_signs []
        (element_modality_profile empty_signs) (key_tensions empty_signs)).1
      = "Sun in  is your identity engine: you don’t run on vibes — you run on outcomes.\nMoon in  is your emotional truth: you need consistency, not just intensity.\nAscendant in  is your social armor: you look composed while carrying more depth than people assume.\nYour edge is integration: when mind + heart + action align, you become undeniable." ∧
    (build_section_text (stable_rng ["w"]) "en" "shadow" "personal" empty_signs []
        (element_modality_profile empty_signs) (key_tensions empty_signs)).1
      ∈ ["Your shadow isn’t ‘bad’ — it’s an old survival strategy that became a habit.",
         "When you feel vulnerable, you reach for control. The cost is spontaneity.",
         "The blind spot isn’t emotion — it’s power management."] :=
  missing_sign_graceful_degradation (stable_rng ["w"])

/-! ## Profile lemmas (C9) -/

theorem planet_weight_values_pos : ∀ q ∈ PLANET_WEIGHT, 0 < q.2 := by
  intro q hq
  fin_cases hq <;> norm_num

theorem planetWeight_pos (p : String) : 0 < planetWeight p := by
  unfold planetWeight
  rcases h : PLANET_WEIGHT.lookup p with _ | v
  · norm_num
  · obtain ⟨l1, l2, hsplit, _⟩ := List.lookup_eq_some_iff.mp h
    have hv : (p, v) ∈ PLANET_WEIGHT := by
      rw [hsplit]
      exact List.mem_append.mpr (Or.inr (List.mem_cons_self _ _))
    simpa using planet_weight_values_pos _ hv

theorem bump_map_fst (l : List (String × ℚ)) (k : String) (w : ℚ) :
    (bump l k w).map Prod.fst = l.map Prod.fst := by
  unfold bump
  rw [List.map_map]
  apply List.map_congr_left
  intro p _
  by_cases h : p.1 = k <;> simp [h]

theorem lookup_bump (l : List (String × ℚ)) (k e : String) (w : ℚ) :
    (bump l k w).lookup e = (l.lookup e).map (fun v => if e = k then v + w else v) := by
  induction l with
  | nil => simp [bump]
  | cons p t ih =>
    obtain ⟨a, b⟩ := p
    unfold bump at ih ⊢
    simp only [List.map_cons]
    by_cases he : e = a
    · subst he
      by_cases ha : e = k
      · subst ha
        simp [List.lookup_cons]
      · have ha2 : ¬ ((e, b).1 = k) := ha
        simp [if_neg ha2, List.lookup_cons, ha]
    · have hb : (e == a) = false := beq_eq_false_iff_ne.mpr he
      by_cases ha : a = k
      · have ha2 : ((a, b).1 = k) := ha
        simp [if_pos ha2, List.lookup_cons, hb, ih]
      · have ha2 : ¬ ((a, b).1 = k) := ha
        simp [if_neg ha2, List.lookup_cons, hb, ih]

theorem foldl_stepT_map_fst (tbl : List (String × String)) (signs : List (String × String)) :
    ∀ acc : List (String × ℚ),
      (signs.foldl (stepT tbl) acc).map Prod.fst = acc.map Prod.fst := by
  induction signs with
  | nil => intro acc; rfl
  | cons ps t ih =>
    intro acc
    rw [List.foldl_cons, ih]
    unfold stepT
    by_cases h : ps.2 = ""
    · simp [h]
    · simp only [if_neg h]
      rcases htbl : tbl.lookup ps.2 with _ | e
      · rfl
      · exact bump_map_fst acc e _

theorem lookup_foldl_stepT (tbl : List (String × String)) (signs : List (String × String)) :
    ∀ (acc : List (String × ℚ)) (e : String),
      (signs.foldl (stepT tbl) acc).lookup e
        = (acc.lookup e).map (fun v => v + specScoreT tbl signs e) := by
  induction signs with
  | nil =>
    intro acc e
    simp [specScoreT]
  | cons ps t ih =>
    intro acc e
    obtain ⟨p, s⟩ := ps
    rw [List.foldl_cons, ih]
    have hspec : specScoreT tbl ((p, s) :: t) e
        = (if s ≠ "" ∧ tbl.lookup s = some e then planetWeight p else 0)
          + specScoreT tbl t e := rfl
    by_cases hs : s = ""
    · have hstep : stepT tbl acc (p, s) = acc := by simp [stepT, hs]
      have hcond : ¬ (s ≠ "" ∧ tbl.lookup s = some e) := fun hc => hc.1 hs
      rw [hstep, hspec, if_neg hcond, zero_add]
    · rcases htbl : tbl.lookup s with _ | e2
      · have hstep : stepT tbl acc (p, s) = acc := by simp [stepT, hs, htbl]
        have hcond : ¬ (s ≠ "" ∧ tbl.lookup s = some e) := by
          rintro ⟨-, hc⟩
          rw [htbl] at hc
          cases hc
        rw [hstep, hspec, if_neg hcond, zero_add]
      · have hstep : stepT tbl acc (p, s) = bump acc e2 (planetWeight p) := by
          simp [stepT, hs, htbl]
        rw [hstep, lookup_bump]
        by_cases he : e2 = e
        · subst he
          have hcond : (s ≠ "" ∧ tbl.lookup s = some e2) := ⟨hs, htbl⟩
          rw [hspec, if_pos hcond]
          rcases hacc : acc.lookup e2 with _ | v
          · simp [hacc]
          · simp [hacc, add_assoc]
        · have hcond : ¬ (s ≠ "" ∧ tbl.lookup s = some e) := by
            rintro ⟨-, hc⟩
            rw [htbl] at hc
            exact he (Option.some.inj hc)
          have hne : ¬ (e = e2) := fun hh => he hh.symm
          rw [hspec, if_neg hcond, zero_add]
          rcases hacc : acc.lookup e with _ | v
          · simp [hacc]
          · simp [hacc, if_neg hne]

theorem specScoreT_nonneg (tbl : List (String × String)) (signs : List (String × String))
    (e : String) : 0 ≤ specScoreT tbl signs e := by
  induction signs with
  | nil => exact le_refl 0
  | cons ps t ih =>
    obtain ⟨p, s⟩ := ps
    unfold specScoreT
    refine add_nonneg ?_ ih
    split
    · exact (planetWeight_pos p).le
    · exact le_refl 0

theorem specScoreT_pos (tbl : List (String × String)) (signs : List (String × String))
    (p s e : String) (hmem : (p, s) ∈ signs) (h : tbl.lookup s = some e) (hs : s ≠ "") :
    0 < specScoreT tbl signs e := by
  induction signs with
  | nil => cases hmem
  | cons q t ih =>
    obtain ⟨a, b⟩ := q
    unfold specScoreT
    rcases List.mem_cons.mp hmem with heq | hmem2
    · injection heq with h1 h2
      subst h1
      subst h2
      rw [if_pos ⟨hs, h⟩]
      exact add_pos_of_pos_of_nonneg (planetWeight_pos p) (specScoreT_nonneg tbl t e)
    · refine add_pos_of_nonneg_of_pos ?_ (ih hmem2)
      split
      · exact (planetWeight_pos a).le
      · exact le_refl 0

theorem init_scores_map_fst (keys : List String) :
    (init_scores keys).map Prod.fst = keys := by
  induction keys with
  | nil => rfl
  | cons k ks ih =>
    simp only [init_scores, List.map_cons] at ih ⊢
    rw [ih]

theorem init_scores_lookup : ∀ (keys : List String) (e : String), e ∈ keys →
    (init_scores keys).lookup e = some 0 := by
  intro keys
  induction keys with
  | nil => intro e he; cases he
  | cons k ks ih =>
    intro e he
    by_cases hek : e = k
    · subst hek
      simp [init_scores]
    · rcases List.mem_cons.mp he with heq | he2
      · exact absurd heq hek
      · simp only [init_scores, List.map_cons] at ih ⊢
        rw [List.lookup_cons]
        have hb : (e == k) = false := beq_eq_false_iff_ne.mpr hek
        rw [hb]
        exact ih e he2

theorem sumValues_eq_keys : ∀ (l : List (String × ℚ)) (keys : List String),
    l.map Prod.fst = keys → keys.Nodup →
    sumValues l = (keys.map (fun k => lookup0 l k)).sum := by
  intro l
  induction l with
  | nil =>
    intro keys h _
    rw [← h]
    rfl
  | cons p t ih =>
    intro keys h hnd
    obtain ⟨a, v⟩ := p
    cases keys with
    | nil => simp at h
    | cons k ks =>
      simp only [List.map_cons, List.cons.injEq] at h
      obtain ⟨h1, htl⟩ := h
      subst h1
      have hnotin : a ∉ ks := (List.nodup_cons.mp hnd).1
      have hlk : ∀ x ∈ ks, lookup0 ((a, v) :: t) x = lookup0 t x := by
        intro x hx
        have hax : (x == a) = false :=
          beq_eq_false_iff_ne.mpr (fun hh => hnotin (hh ▸ hx))
        unfold lookup0
        rw [List.lookup_cons, hax]
      have h00 : lookup0 ((a, v) :: t) a = v := by
        simp [lookup0]
      have hsum : sumValues ((a, v) :: t) = v + sumValues t := by
        simp [sumValues]
      rw [hsum, List.map_cons, List.sum_cons, h00,
        List.map_congr_left hlk, ih ks htl (List.nodup_cons.mp hnd).2]

theorem sum_map_pos {f : String → ℚ} : ∀ (keys : List String) (e : String), e ∈ keys →
    0 < f e → (∀ k ∈ keys, 0 ≤ f k) → 0 < (keys.map f).sum := by
  intro keys
  induction keys with
  | nil => intro e he; cases he
  | cons k ks ih =>
    intro e he hpos hnn
    simp only [List.map_cons, List.sum_cons]
    rcases List.mem_cons.mp he with heq | he2
    · subst heq
      have h2 : 0 ≤ (ks.map f).sum :=
        List.sum_nonneg (by
          intro x hx
          obtain ⟨y, hy, rfl⟩ := List.mem_map.mp hx
          exact hnn y (List.mem_cons_of_mem _ hy))
      linarith
    · have h1 : 0 ≤ f k := hnn k (List.mem_cons_self _ _)
      have h2 : 0 < (ks.map f).sum :=
        ih e he2 hpos (fun k2 hk2 => hnn k2 (List.mem_cons_of_mem _ hk2))
      linarith

theorem foldl_max_spec (f : String → ℚ) :
    ∀ (ks : List String) (b r : String),
      r = ks.foldl (fun best j => if f j > f best then j else best) b →
      (f b ≤ f r ∧ ∀ j ∈ ks, f j ≤ f r) ∧
      (r = b ∨ (f b < f r ∧ ∃ l1 l2, ks = l1 ++ r :: l2 ∧ ∀ x ∈ l1, f x < f r)) := by
  intro ks
  induction ks with
  | nil =>
    intro b r hr
    rw [List.foldl_nil] at hr
    subst hr
    exact ⟨⟨le_refl _, by intro j hj; cases hj⟩, Or.inl rfl⟩
  | cons j t ih =>
    intro b r hr
    rw [List.foldl_cons] at hr
    by_cases hjb : f j > f b
    · rw [if_pos hjb] at hr
      obtain ⟨⟨hbr, hall⟩, hfirst⟩ := ih j r hr
      refine ⟨⟨le_of_lt (lt_of_lt_of_le hjb hbr), ?_⟩, ?_⟩
      · intro x hx
        rcases List.mem_cons.mp hx with heq | hx2
        · subst heq; exact hbr
        · exact hall x hx2
      · right
        refine ⟨lt_of_lt_of_le hjb hbr, ?_⟩
        rcases hfirst with heq | ⟨hjr, l1, l2, hsplit, hlt⟩
        · subst heq
          exact ⟨[], t, rfl, by intro x hx; cases hx⟩
        · refine ⟨j :: l1, l2, by rw [hsplit, List.cons_append], ?_⟩
          intro x hx
          rcases List.mem_cons.mp hx with heq | hx2
          · subst heq; exact hjr
          · exact hlt x hx2
    · rw [if_neg hjb] at hr
      push_neg at hjb
      obtain ⟨⟨hbr, hall⟩, hfirst⟩ := ih b r hr
      refine ⟨⟨hbr, ?_⟩, ?_⟩
      · intro x hx
        rcases List.mem_cons.mp hx with heq | hx2
        · subst heq; exact le_trans hjb hbr
        · exact hall x hx2
      · rcases hfirst with heq | ⟨hbr2, l1, l2, hsplit, hlt⟩
        · exact Or.inl heq
        · right
          refine ⟨hbr2, j :: l1, l2, by rw [hsplit, List.cons_append], ?_⟩
          intro x hx
          rcases List.mem_cons.mp hx with heq | hx2
          · subst heq; exact lt_of_le_of_lt hjb hbr2
          · exact hlt x hx2

theorem pymaxKey_first_max (f : String → ℚ) (k : String) (ks : List String) :
    ∃ d, pymaxKey f (k :: ks) = some d ∧
      (∀ j ∈ k :: ks, f j ≤ f d) ∧
      ∃ l1 l2, k :: ks = l1 ++ d :: l2 ∧ ∀ x ∈ l1, f x < f d := by
  generalize hr : ks.foldl (fun best j => if f j > f best then j else best) k = r
  obtain ⟨⟨hbr, hall⟩, hfirst⟩ := foldl_max_spec f ks k r hr.symm
  refine ⟨r, by simp [pymaxKey, hr], ?_, ?_⟩
  · intro j hj
    rcases List.mem_cons.mp hj with heq | hj2
    · subst heq; exact hbr
    · exact hall j hj2
  · rcases hfirst with heq | ⟨hkr, l1, l2, hsplit, hlt⟩
    · subst heq
      exact ⟨[], ks, rfl, by intro x hx; cases hx⟩
    · refine ⟨k :: l1, l2, by rw [hsplit, List.cons_append], ?_⟩
      intro x hx
      rcases List.mem_cons.mp hx with heq | hx2
      · subst heq; exact hkr
      · exact hlt x hx2

theorem profile_step_eq (acc : List (String × ℚ) × List (String × ℚ)) (ps : String × String) :
    profile_step acc ps = (stepT ELEMENT acc.1 ps, stepT MODALITY acc.2 ps) := by
  obtain ⟨a, b⟩ := acc
  unfold profile_step stepT
  by_cases h : ps.2 = "" <;> simp [h]

theorem foldl_profile_split (signs : List (String × String)) :
    ∀ (a b : List (String × ℚ)),
      signs.foldl profile_step (a, b)
        = (signs.foldl (stepT ELEMENT) a, signs.foldl (stepT MODALITY) b) := by
  induction signs with
  | nil => intro a b; rfl
  | cons ps t ih =>
    intro a b
    rw [List.foldl_cons, List.foldl_cons, List.foldl_cons, profile_step_eq]
    exact ih _ _

theorem specScoreT_elem (signs : List (String × String)) (e : String) :
    specScoreT ELEMENT signs e = specElemScore signs e := by
  induction signs with
  | nil => rfl
  | cons ps t ih =>
    obtain ⟨p, s⟩ := ps
    unfold specScoreT specElemScore
    rw [ih]

theorem specScoreT_mod (signs : List (String × String)) (m : String) :
    specScoreT MODALITY signs m = specModScore signs m := by
  induction signs with
  | nil => rfl
  | cons ps t ih =>
    obtain ⟨p, s⟩ := ps
    unfold specScoreT specModScore
    rw [ih]

theorem element_values_in_keys : ∀ pr ∈ ELEMENT, pr.2 ∈ ELEM_KEYS := by decide

theorem modality_values_in_keys : ∀ pr ∈ MODALITY, pr.2 ∈ MOD_KEYS := by decide

theorem element_to_modality : ∀ pr ∈ ELEMENT, (MODALITY.lookup pr.1).isSome = true := by decide

/-- Full analysis of one score dict of `element_modality_profile`, generic in
the lookup table: the final dict maps each key to the spec tally, its total is
positive as soon as one sign is recognized, its key order is unchanged, and
Python's `max(dict, key=...)` picks the first key attaining the maximal
tally. -/
theorem table_dominant (tbl : List (String × String)) (keys : List String)
    (signs : List (String × String))
    (hvals : ∀ pr ∈ tbl, pr.2 ∈ keys)
    (hnd : keys.Nodup)
    (hany : ∃ pr ∈ signs, (tbl.lookup pr.2).isSome = true)
    (hempty : tbl.lookup "" = Option.none) :
    (∀ e ∈ keys,
        lookup0 (signs.foldl (stepT tbl) (init_scores keys)) e = specScoreT tbl signs e) ∧
    0 < sumValues (signs.foldl (stepT tbl) (init_scores keys)) ∧
    (signs.foldl (stepT tbl) (init_scores keys)).map Prod.fst = keys ∧
    ∃ d l1 l2,
      pymaxKey (lookup0 (signs.foldl (stepT tbl) (init_scores keys)))
          ((signs.foldl (stepT tbl) (init_scores keys)).map Prod.fst) = some d ∧
      keys = l1 ++ d :: l2 ∧
      (∀ j ∈ keys, specScoreT tbl signs j ≤ specScoreT tbl signs d) ∧
      (∀ x ∈ l1, specScoreT tbl signs x < specScoreT tbl signs d) := by
  generalize hes : signs.foldl (stepT tbl) (init_scores keys) = es
  have hlook : ∀ e ∈ keys, es.lookup e = some (specScoreT tbl signs e) := by
    intro e he
    rw [← hes, lookup_foldl_stepT, init_scores_lookup keys e he]
    simp
  have hlook0 : ∀ e ∈ keys, lookup0 es e = specScoreT tbl signs e := by
    intro e he
    unfold lookup0
    rw [hlook e he]
    rfl
  have hkeys : es.map Prod.fst = keys := by
    rw [← hes, foldl_stepT_map_fst, init_scores_map_fst]
  obtain ⟨⟨p, s⟩, hmem, hsome⟩ := hany
  obtain ⟨e0, he0⟩ := Option.isSome_iff_exists.mp hsome
  have hs : s ≠ "" := by
    rintro rfl
    rw [hempty] at he0
    cases he0
  have he0k : e0 ∈ keys := by
    obtain ⟨la, lb, hsplit, -⟩ := List.lookup_eq_some_iff.mp he0
    refine hvals (s, e0) ?_
    rw [hsplit]
    exact List.mem_append.mpr (Or.inr (List.mem_cons_self _ _))
  have hpos : 0 < specScoreT tbl signs e0 := specScoreT_pos tbl signs p s e0 hmem he0 hs
  have hnn : ∀ k ∈ keys, 0 ≤ specScoreT tbl signs k :=
    fun k _ => specScoreT_nonneg tbl signs k
  have hsum : 0 < sumValues es := by
    rw [sumValues_eq_keys es keys hkeys hnd,
      List.map_congr_left (fun k hk => hlook0 k hk)]
    exact sum_map_pos keys e0 he0k hpos hnn
  refine ⟨hlook0, hsum, hkeys, ?_⟩
  cases keys with
  | nil => cases he0k
  | cons k ks =>
    obtain ⟨d, hd, hmax, l1, l2, hsplit, hfirst⟩ := pymaxKey_first_max (lookup0 es) k ks
    have hdmem : d ∈ k :: ks := by
      rw [hsplit]
      exact List.mem_append.mpr (Or.inr (List.mem_cons_self _ _))
    refine ⟨d, l1, l2, ?_, hsplit, ?_, ?_⟩
    · rw [hkeys]
      exact hd
    · intro j hj
      have hle := hmax j hj
      rwa [hlook0 j hj, hlook0 d hdmem] at hle
    · intro x hx
      have hxmem : x ∈ k :: ks := by
        rw [hsplit]
        exact List.mem_append.mpr (Or.inl hx)
      have hlt := hfirst x hx
      rwa [hlook0 x hxmem, hlook0 d hdmem] at hlt

/-! ## Claim C9 -/

/-- C9: with at least one recognized sign, the profile tallies each placement's
element and modality weighted by the body's fixed importance weight
(`lookup0 … = spec tally`), and the dominant element (resp. modality) is the
*first* key of the fixed enumeration `fire/earth/air/water` (resp.
`cardinal/fixed/mutable`) attaining the maximal tally: every key scores no
more than it, and every key listed before it scores strictly less. -/
theorem dominant_is_first_max (signs : List (String × String))
    (h : signs.any (fun ps => (ELEMENT.lookup ps.2).isSome) = true) :
    (∀ e ∈ ELEM_KEYS,
        lookup0 (element_modality_profile signs).elements e = specElemScore signs e) ∧
    (∀ m ∈ MOD_KEYS,
        lookup0 (element_modality_profile signs).modalities m = specModScore signs m) ∧
    (∃ d l1 l2, (element_modality_profile signs).dominant_element = some d ∧
        ELEM_KEYS = l1 ++ d :: l2 ∧
        (∀ j ∈ ELEM_KEYS, specElemScore signs j ≤ specElemScore signs d) ∧
        (∀ x ∈ l1, specElemScore signs x < specElemScore signs d)) ∧
    (∃ d l1 l2, (element_modality_profile signs).dominant_modality = some d ∧
        MOD_KEYS = l1 ++ d :: l2 ∧
        (∀ j ∈ MOD_KEYS, specModScore signs j ≤ specModScore signs d) ∧
        (∀ x ∈ l1, specModScore signs x < specModScore signs d)) := by
  obtain ⟨pr0, hmem0, hsome0⟩ := List.any_eq_true.mp h
  have hanyE : ∃ pr ∈ signs, (ELEMENT.lookup pr.2).isSome = true := ⟨pr0, hmem0, hsome0⟩
  have hanyM : ∃ pr ∈ signs, (MODALITY.lookup pr.2).isSome = true := by
    obtain ⟨e0, he0⟩ := Option.isSome_iff_exists.mp hsome0
    obtain ⟨la, lb, hsplit, -⟩ := List.lookup_eq_some_iff.mp he0
    have hmm : (pr0.2, e0) ∈ ELEMENT := by
      rw [hsplit]
      exact List.mem_append.mpr (Or.inr (List.mem_cons_self _ _))
    exact ⟨pr0, hmem0, element_to_modality _ hmm⟩
  obtain ⟨hLE, hSE, hKE, dE, l1E, l2E, hdE, hsplE, hmaxE, hfstE⟩ :=
    table_dominant ELEMENT ELEM_KEYS signs element_values_in_keys (by decide) hanyE (by decide)
  obtain ⟨hLM, hSM, hKM, dM, l1M, l2M, hdM, hsplM, hmaxM, hfstM⟩ :=
    table_dominant MODALITY MOD_KEYS signs modality_values_in_keys (by decide) hanyM (by decide)
  have hprof : element_modality_profile signs
      = { elements := signs.foldl (stepT ELEMENT) (init_scores ELEM_KEYS)
          modalities := signs.foldl (stepT MODALITY) (init_scores MOD_KEYS)
          dominant_element :=
            if 0 < sumValues (signs.foldl (stepT ELEMENT) (init_scores ELEM_KEYS)) then
              pymaxKey (lookup0 (signs.foldl (stepT ELEMENT) (init_scores ELEM_KEYS)))
                ((signs.foldl (stepT ELEMENT) (init_scores ELEM_KEYS)).map Prod.fst)
            else Option.none
          dominant_modality :=
            if 0 < sumValues (signs.foldl (stepT MODALITY) (init_scores MOD_KEYS)) then
              pymaxKey (lookup0 (signs.foldl (stepT MODALITY) (init_scores MOD_KEYS)))
                ((signs.foldl (stepT MODALITY) (init_scores MOD_KEYS)).map Prod.fst)
            else Option.none } := by
    unfold element_modality_profile
    rw [foldl_profile_split]
  refine ⟨?_, ?_, ⟨dE, l1E, l2E, ?_, hsplE, ?_, ?_⟩, ⟨dM, l1M, l2M, ?_, hsplM, ?_, ?_⟩⟩
  · intro e he
    rw [hprof]
    exact (hLE e he).trans (specScoreT_elem signs e)
  · intro m hm
    rw [hprof]
    exact (hLM m hm).trans (specScoreT_mod signs m)
  · rw [hprof]
    show (if 0 < sumValues _ then _ else Option.none) = some dE
    rw [if_pos hSE]
    exact hdE
  · intro j hj
    have hle := hmaxE j hj
    rwa [specScoreT_elem, specScoreT_elem] at hle
  · intro x hx
    have hlt := hfstE x hx
    rwa [specScoreT_elem, specScoreT_elem] at hlt
  · rw [hprof]
    show (if 0 < sumValues _ then _ else Option.none) = some dM
    rw [if_pos hSM]
    exact hdM
  · intro j hj
    have hle := hmaxM j hj
    rwa [specScoreT_mod, specScoreT_mod] at hle
  · intro x hx
    have hlt := hfstM x hx
    rwa [specScoreT_mod, specScoreT_mod] at hlt

/-- C9 (witness): the first-max statement at the concrete sign assignment
`sun ↦ Aries` (one recognized sign, one empty). -/
theorem dominant_first_max_witness :
    ([("sun", "Aries"), ("moon", "")].any (fun ps => (ELEMENT.lookup ps.2).isSome) = true) ∧
    (∃ d l1 l2,
        (element_modality_profile [("sun", "Aries"), ("moon", "")]).dominant_element = some d ∧
        ELEM_KEYS = l1 ++ d :: l2 ∧
        (∀ j ∈ ELEM_KEYS,
          specElemScore [("sun", "Aries"), ("moon", "")] j
            ≤ specElemScore [("sun", "Aries"), ("moon", "")] d) ∧
        (∀ x ∈ l1,
          specElemScore [("sun", "Aries"), ("moon", "")] x
            < specElemScore [("sun", "Aries"), ("moon", "")] d)) :=
  ⟨by decide, (dominant_is_first_max [("sun", "Aries"), ("moon", "")] (by decide)).2.2.1⟩

end AstroFlow
